import Mathlib

/-!
Shallow embedding of `src/src/data/database.py` (torrent-bot persistence layer).

The Python module wraps a SQLite database.  We model:
  * SQLite storage values as `SqlValue` (NULL / INTEGER / TEXT — the only
    storage classes this module ever stores);
  * a result row (the `dict` produced by `dict_factory`) as an association
    list `Row` from column name to value;
  * the whole database file as `DB`: the three tables plus the
    AUTOINCREMENT sequence counter of each table;
  * each `TBDatabase` method as a pure function `DB → … → Except DBError …`,
    where `DBError.pyError` stands for the plain Python `Exception` raised by
    the module's own validation code and `DBError.integrityError` stands for
    `sqlite3.IntegrityError` raised by the engine on a constraint violation.

SQLite semantics reflected here:
  * `=` in a WHERE/ON clause is three-valued: a comparison with NULL is
    never TRUE, and values of different storage classes are never equal
    (`sqlEq`);
  * UNIQUE indexes treat NULL entries as distinct from everything,
    so rows whose indexed column is NULL never conflict;
  * declared FOREIGN KEYs are NOT enforced: the connection is opened with
    `sqlite3.connect` and `PRAGMA foreign_keys=ON` is never issued, so the
    engine's default (foreign-key enforcement off) applies;
  * a failed statement leaves the database unchanged (the module commits
    only after a successful `execute`).
-/

deriving instance DecidableEq for Except

set_option maxRecDepth 8000

/-- A SQLite storage value as used by this module: NULL, INTEGER or TEXT. -/
inductive SqlValue where
  | null
  | int (i : Int)
  | text (s : String)
deriving DecidableEq, Repr

/-- SQL `=` comparison as used in WHERE/ON clauses and UNIQUE indexes:
NULL compares equal to nothing (not even NULL), and different storage
classes are never equal. -/
def sqlEq : SqlValue → SqlValue → Bool
  | .int a, .int b => a = b
  | .text a, .text b => a = b
  | _, _ => false

def isNull : SqlValue → Bool
  | .null => true
  | _ => false

/-- A row as returned by `dict_factory`: column name ↦ value, in the
column order of the table. -/
abbrev Row := List (String × SqlValue)

/-- Value of column `c` in row `r` (NULL when the column is absent):
dictionary lookup on the first matching key. -/
def getField (r : Row) (c : String) : SqlValue :=
  match r with
  | [] => .null
  | (k, v) :: t => if c = k then v else getField t c

/-- `UPDATE … SET c = v` applied to one row: overwrite column `c`,
leave every other column untouched. -/
def setField (r : Row) (c : String) (v : SqlValue) : Row :=
  r.map (fun p => if p.fst = c then (p.fst, v) else p)

/-- Apply a keyword-argument mapping (the `**kwargs` of the update
methods) to a row, left to right. -/
def applyKwargs (r : Row) (kwargs : List (String × SqlValue)) : Row :=
  kwargs.foldl (fun acc kv => setField acc kv.fst kv.snd) r

/-- `r.map Prod.fst = cols`: the row has exactly the schema's columns,
in schema order.  Every row this module ever materialises satisfies this. -/
def rowWF (cols : List String) (r : Row) : Prop :=
  r.map Prod.fst = cols

instance (cols : List String) (r : Row) : Decidable (rowWF cols r) := by
  unfold rowWF; infer_instance

/-- Error taxonomy: `pyError` is the plain Python `Exception` raised by the
module's own checks; `integrityError` is `sqlite3.IntegrityError`, the
distinguishable constraint-violation failure raised by the engine. -/
inductive DBError where
  | pyError (msg : String)
  | integrityError (msg : String)
deriving DecidableEq, Repr

/-- `TorrentState.get_states()`. -/
def torrent_states : List String :=
  ["SEARCHING", "DOWNLOADING", "SEEDING", "COMPLETED", "DELETING", "PAUSED"]

/- Schema column lists (CREATE TABLE statements in `create_schema`). -/

def movieCols : List String :=
  ["id", "name", "max_size_mb", "resolution_profile", "state", "hash"]

def tvShowCols : List String :=
  ["id", "name", "max_episode_size_mb", "resolution_profile", "state"]

def seasonCols : List String :=
  ["id", "show_id", "season_number", "season_number_episodes", "state", "hash"]

/- Declared constraints of each table.  `listPairwiseDistinct conflict`
is the UNIQUE-index check: no earlier row may conflict with a later one. -/

def listPairwiseDistinct (conflict : Row → Row → Bool) : List Row → Bool
  | [] => true
  | r :: rs => rs.all (fun s => !(conflict r s)) && listPairwiseDistinct conflict rs

/-- NOT NULL columns of `movies`: name, max_size_mb, resolution_profile, state. -/
def movieRowOk (r : Row) : Bool :=
  !(isNull (getField r "name")) && !(isNull (getField r "max_size_mb")) &&
  !(isNull (getField r "resolution_profile")) && !(isNull (getField r "state"))

/-- UNIQUE("name") on `movies` (NULL never conflicts, per SQLite). -/
def movieConflict (a b : Row) : Bool :=
  sqlEq (getField a "name") (getField b "name")

def moviesOk (rows : List Row) : Bool :=
  rows.all movieRowOk && listPairwiseDistinct movieConflict rows

/-- NOT NULL columns of `tv_shows`. -/
def tvShowRowOk (r : Row) : Bool :=
  !(isNull (getField r "name")) && !(isNull (getField r "max_episode_size_mb")) &&
  !(isNull (getField r "resolution_profile")) && !(isNull (getField r "state"))

/-- UNIQUE("name") on `tv_shows`. -/
def tvShowConflict (a b : Row) : Bool :=
  sqlEq (getField a "name") (getField b "name")

def tvShowsOk (rows : List Row) : Bool :=
  rows.all tvShowRowOk && listPairwiseDistinct tvShowConflict rows

/-- NOT NULL columns of `tv_show_seasons` (`show_id` is nullable). -/
def seasonRowOk (r : Row) : Bool :=
  !(isNull (getField r "season_number")) && !(isNull (getField r "season_number_episodes")) &&
  !(isNull (getField r "state"))

/-- UNIQUE(show_id, season_number): rows with a NULL show_id never
conflict (SQLite treats NULL index entries as all distinct). -/
def seasonConflict (a b : Row) : Bool :=
  sqlEq (getField a "show_id") (getField b "show_id") &&
  sqlEq (getField a "season_number") (getField b "season_number")

def seasonsOk (rows : List Row) : Bool :=
  rows.all seasonRowOk && listPairwiseDistinct seasonConflict rows

/-- The database file: three tables (no FOREIGN KEY enforcement, see header)
plus each table's AUTOINCREMENT sequence. -/
structure DB where
  movies : List Row
  tv_shows : List Row
  tv_show_seasons : List Row
  movie_seq : Int
  show_seq : Int
  season_seq : Int
deriving DecidableEq, Repr

/- ------------------------------------------------------------------ -/
/- Read operations                                                     -/
/- ------------------------------------------------------------------ -/

/-- `get_movies_with_state`: membership check against
`TorrentState.get_states()` first, then `SELECT * FROM movies WHERE state=?`. -/
def get_movies_with_state (db : DB) (state : String) : Except DBError (List Row) :=
  if torrent_states.contains state then
    .ok (db.movies.filter (fun r => sqlEq (getField r "state") (.text state)))
  else
    .error (.pyError ("Non allowed state=" ++ state ++ "!"))

/-- `get_tv_shows_with_state`. -/
def get_tv_shows_with_state (db : DB) (state : String) : Except DBError (List Row) :=
  if torrent_states.contains state then
    .ok (db.tv_shows.filter (fun r => sqlEq (getField r "state") (.text state)))
  else
    .error (.pyError ("Non allowed state=" ++ state ++ "!"))

/-- `get_all_movies`: `SELECT * FROM movies`. -/
def get_all_movies (db : DB) : List Row := db.movies

/-- `get_all_tv_shows`: `SELECT * FROM tv_shows`. -/
def get_all_tv_shows (db : DB) : List Row := db.tv_shows

/-- One row of `tv_shows_with_seasons_view` (the SELECT list of the
CREATE VIEW statement in `create_schema`). -/
def mkViewRow (sh se : Row) : Row :=
  [("show_id", getField sh "id"),
   ("show_name", getField sh "name"),
   ("show_state", getField sh "state"),
   ("season_id", getField se "id"),
   ("season_number", getField se "season_number"),
   ("season_number_episodes", getField se "season_number_episodes"),
   ("season_state", getField se "state"),
   ("season_hash", getField se "hash")]

/-- The join list computed from the two base tables (nested loop:
shows outer, matching seasons inner). -/
def viewList (shows seasons : List Row) : List Row :=
  shows.flatMap (fun sh =>
    (seasons.filter (fun se => sqlEq (getField sh "id") (getField se "show_id"))).map
      (fun se => mkViewRow sh se))

/-- `tv_shows_with_seasons_view`:
`FROM tv_shows INNER JOIN tv_show_seasons ON tv_shows.id = tv_show_seasons.show_id`. -/
def tvShowsWithSeasonsView (db : DB) : List Row :=
  viewList db.tv_shows db.tv_show_seasons

/-- `get_all_tv_shows_with_seasons`: `SELECT * FROM tv_shows_with_seasons_view`. -/
def get_all_tv_shows_with_seasons (db : DB) : List Row :=
  tvShowsWithSeasonsView db

/-- `get_tv_show_with_seasons`: same view, `WHERE show_id=?`. -/
def get_tv_show_with_seasons (db : DB) (id : Int) : List Row :=
  (tvShowsWithSeasonsView db).filter (fun r => sqlEq (getField r "show_id") (.int id))

/-- `get_movie`: `SELECT * FROM movies WHERE id=?`, `fetchone()`
(first matching row, or `None`). -/
def get_movie (db : DB) (id : Int) : Option Row :=
  db.movies.find? (fun r => sqlEq (getField r "id") (.int id))

/-- `get_tv_show`. -/
def get_tv_show (db : DB) (id : Int) : Option Row :=
  db.tv_shows.find? (fun r => sqlEq (getField r "id") (.int id))

/-- `get_season_states`: `SELECT season_state FROM tv_shows_with_seasons_view
WHERE show_id=?`, then the rows' `season_state` values are added one by one
to a Python `set`. -/
def get_season_states (db : DB) (show_id : Int) : Finset SqlValue :=
  (((tvShowsWithSeasonsView db).filter
      (fun r => sqlEq (getField r "show_id") (.int show_id))).map
    (fun r => getField r "season_state")).toFinset

/- ------------------------------------------------------------------ -/
/- Delete operations                                                   -/
/- ------------------------------------------------------------------ -/

/-- `delete_movie`: `DELETE FROM movies WHERE id=?` then commit. -/
def delete_movie (db : DB) (id : Int) : DB :=
  { db with movies := db.movies.filter (fun r => !(sqlEq (getField r "id") (.int id))) }

/-- `delete_tv_show`: `DELETE FROM tv_shows WHERE id=?` then commit.
Nothing else is touched (no cascade; foreign keys are not enforced). -/
def delete_tv_show (db : DB) (id : Int) : DB :=
  { db with tv_shows := db.tv_shows.filter (fun r => !(sqlEq (getField r "id") (.int id))) }

/-- `delete_season`: `DELETE FROM tv_show_seasons WHERE id=?` then commit. -/
def delete_season (db : DB) (id : Int) : DB :=
  { db with tv_show_seasons :=
      db.tv_show_seasons.filter (fun r => !(sqlEq (getField r "id") (.int id))) }

/- ------------------------------------------------------------------ -/
/- Create operations                                                   -/
/- ------------------------------------------------------------------ -/

/-- `add_movie`: `INSERT INTO movies(name,max_size_mb,resolution_profile)
VALUES(?,?,?)` — `id` is auto-assigned, `state` defaults to `'SEARCHING'`,
`hash` is NULL.  A constraint violation raises `sqlite3.IntegrityError`
and the row is not created. -/
def newMovieRow (db : DB) (name max_size_mb resolution_profile : SqlValue) : Row :=
  [("id", .int db.movie_seq), ("name", name), ("max_size_mb", max_size_mb),
   ("resolution_profile", resolution_profile), ("state", .text "SEARCHING"),
   ("hash", .null)]

def add_movie (db : DB) (name max_size_mb resolution_profile : SqlValue) :
    Except DBError DB :=
  if moviesOk (db.movies ++ [newMovieRow db name max_size_mb resolution_profile]) then
    .ok { db with
          movies := db.movies ++ [newMovieRow db name max_size_mb resolution_profile],
          movie_seq := db.movie_seq + 1 }
  else
    .error (.integrityError "constraint failed: movies")

/-- `add_tv_show`. -/
def newTvShowRow (db : DB) (name max_episode_size_mb resolution_profile : SqlValue) : Row :=
  [("id", .int db.show_seq), ("name", name),
   ("max_episode_size_mb", max_episode_size_mb),
   ("resolution_profile", resolution_profile), ("state", .text "SEARCHING")]

def add_tv_show (db : DB) (name max_episode_size_mb resolution_profile : SqlValue) :
    Except DBError DB :=
  if tvShowsOk (db.tv_shows ++ [newTvShowRow db name max_episode_size_mb resolution_profile]) then
    .ok { db with
          tv_shows := db.tv_shows ++ [newTvShowRow db name max_episode_size_mb resolution_profile],
          show_seq := db.show_seq + 1 }
  else
    .error (.integrityError "constraint failed: tv_shows")

/-- `add_tv_show_season`: `INSERT INTO
tv_show_seasons(show_id,season_number,season_number_episodes) VALUES(?,?,?)`.
Note: no foreign-key check is performed — the connection never enables
`PRAGMA foreign_keys`, so `show_id` may be NULL or dangle. -/
def newSeasonRow (db : DB) (show_id season_number season_number_episodes : SqlValue) : Row :=
  [("id", .int db.season_seq), ("show_id", show_id),
   ("season_number", season_number),
   ("season_number_episodes", season_number_episodes),
   ("state", .text "SEARCHING"), ("hash", .null)]

def add_tv_show_season (db : DB) (show_id season_number season_number_episodes : SqlValue) :
    Except DBError DB :=
  if seasonsOk (db.tv_show_seasons ++
      [newSeasonRow db show_id season_number season_number_episodes]) then
    .ok { db with
          tv_show_seasons := db.tv_show_seasons ++
            [newSeasonRow db show_id season_number season_number_episodes],
          season_seq := db.season_seq + 1 }
  else
    .error (.integrityError "constraint failed: tv_show_seasons")

/- ------------------------------------------------------------------ -/
/- Update operations                                                   -/
/- ------------------------------------------------------------------ -/

/-- Python `repr` of a list of strings, as interpolated into the error
message `f"The key argument must be one of the following: \x7bcolumns\x7d"`. -/
def pyListRepr (l : List String) : String :=
  "[" ++ String.intercalate ", " (l.map (fun s => "\x27" ++ s ++ "\x27")) ++ "]"

/-- Message of the `Exception` raised on an empty `kwargs`. -/
def emptyKwargsMsg : String := "At least one argument must be specified"

/-- Message of the `Exception` raised on a key outside the allow-list
(the f-string interpolates only the allow-list, never the offending key). -/
def unknownColumnMsg (allowed : List String) : String :=
  "The key argument must be one of the following: " ++ pyListRepr allowed

/-- Effect of `UPDATE table SET k1=?, … WHERE id=?`: every row whose `id`
column equals the parameter gets the kwargs applied; every other row is
untouched. -/
def runUpdate (rows : List Row) (id : Int) (kwargs : List (String × SqlValue)) :
    List Row :=
  rows.map (fun r => if sqlEq (getField r "id") (.int id) then applyKwargs r kwargs else r)

/-- Common body of `update_movie` / `update_tv_show` / `update_show_season`:
raise on empty kwargs; walk the kwargs and raise at the first key outside
the allow-list (before any write); otherwise run
`UPDATE table SET k1=?, … WHERE id=?` and commit.  A constraint violation
during the UPDATE raises `sqlite3.IntegrityError` and changes nothing. -/
def genericUpdate (allowed : List String) (tableOk : List Row → Bool)
    (rows : List Row) (id : Int) (kwargs : List (String × SqlValue)) :
    Except DBError (List Row) :=
  if kwargs.isEmpty then
    .error (.pyError emptyKwargsMsg)
  else
    match kwargs.find? (fun kv => !(allowed.contains kv.fst)) with
    | some _ => .error (.pyError (unknownColumnMsg allowed))
    | none =>
        if tableOk (runUpdate rows id kwargs) then .ok (runUpdate rows id kwargs)
        else .error (.integrityError "constraint failed")

/-- `movie_table_columns` (the allow-list in `update_movie`). -/
def movie_table_columns : List String :=
  ["name", "max_size_mb", "resolution_profile", "state", "hash"]

/-- `tv_shows_table_columns` (the allow-list in `update_tv_show`). -/
def tv_shows_table_columns : List String :=
  ["name", "max_episode_size_mb", "resolution_profile", "state"]

/-- `tv_show_season_table_columns` (the allow-list in `update_show_season`). -/
def tv_show_season_table_columns : List String :=
  ["season_number", "season_number_episodes", "state", "hash"]

/-- `update_movie(id, **kwargs)`. -/
def update_movie (db : DB) (id : Int) (kwargs : List (String × SqlValue)) :
    Except DBError DB :=
  match genericUpdate movie_table_columns moviesOk db.movies id kwargs with
  | .error e => .error e
  | .ok rows => .ok { db with movies := rows }

/-- `update_tv_show(id, **kwargs)`. -/
def update_tv_show (db : DB) (id : Int) (kwargs : List (String × SqlValue)) :
    Except DBError DB :=
  match genericUpdate tv_shows_table_columns tvShowsOk db.tv_shows id kwargs with
  | .error e => .error e
  | .ok rows => .ok { db with tv_shows := rows }

/-- `update_show_season(id, **kwargs)`. -/
def update_show_season (db : DB) (id : Int) (kwargs : List (String × SqlValue)) :
    Except DBError DB :=
  match genericUpdate tv_show_season_table_columns seasonsOk db.tv_show_seasons id kwargs with
  | .error e => .error e
  | .ok rows => .ok { db with tv_show_seasons := rows }



/- ------------------------------------------------------------------ -/
/- Concrete databases used to exercise the operations                  -/
/- ------------------------------------------------------------------ -/

/-- A store holding one movie (id 1, name "A", state SEARCHING). -/
def exampleDB : DB :=
  { movies := [[("id", SqlValue.int 1), ("name", SqlValue.text "A"),
      ("max_size_mb", SqlValue.int 100), ("resolution_profile", SqlValue.text "1080p"),
      ("state", SqlValue.text "SEARCHING"), ("hash", SqlValue.null)]],
    tv_shows := [], tv_show_seasons := [],
    movie_seq := 2, show_seq := 1, season_seq := 1 }

/-- `exampleDB` after the movie's state column was overwritten with the
non-enumerated value "BOGUS". -/
def exampleDBBogus : DB :=
  { exampleDB with
    movies := [[("id", SqlValue.int 1), ("name", SqlValue.text "A"),
      ("max_size_mb", SqlValue.int 100), ("resolution_profile", SqlValue.text "1080p"),
      ("state", SqlValue.text "BOGUS"), ("hash", SqlValue.null)]] }

/-- Show row id 1, "S1". -/
def exShowS1 : Row :=
  [("id", SqlValue.int 1), ("name", SqlValue.text "S1"),
   ("max_episode_size_mb", SqlValue.int 500),
   ("resolution_profile", SqlValue.text "1080p"), ("state", SqlValue.text "SEARCHING")]

/-- Show row id 2, "S2" (it will own no seasons). -/
def exShowS2 : Row :=
  [("id", SqlValue.int 2), ("name", SqlValue.text "S2"),
   ("max_episode_size_mb", SqlValue.int 500),
   ("resolution_profile", SqlValue.text "1080p"), ("state", SqlValue.text "SEARCHING")]

/-- Season 1 of show 1 (SEEDING). -/
def exSeason1 : Row :=
  [("id", SqlValue.int 1), ("show_id", SqlValue.int 1), ("season_number", SqlValue.int 1),
   ("season_number_episodes", SqlValue.int 10), ("state", SqlValue.text "SEEDING"),
   ("hash", SqlValue.null)]

/-- Season 2 of show 1 (SEEDING). -/
def exSeason2 : Row :=
  [("id", SqlValue.int 2), ("show_id", SqlValue.int 1), ("season_number", SqlValue.int 2),
   ("season_number_episodes", SqlValue.int 8), ("state", SqlValue.text "SEEDING"),
   ("hash", SqlValue.null)]

/-- Season 3 of show 1 (COMPLETED). -/
def exSeason3 : Row :=
  [("id", SqlValue.int 3), ("show_id", SqlValue.int 1), ("season_number", SqlValue.int 3),
   ("season_number_episodes", SqlValue.int 8), ("state", SqlValue.text "COMPLETED"),
   ("hash", SqlValue.null)]

/-- A store holding one movie, two shows (id 1 "S1", id 2 "S2") and three
seasons of show 1 (states SEEDING, SEEDING, COMPLETED); show 2 has no
seasons. -/
def exJoinDB : DB :=
  { movies := [[("id", SqlValue.int 1), ("name", SqlValue.text "A"),
      ("max_size_mb", SqlValue.int 100), ("resolution_profile", SqlValue.text "1080p"),
      ("state", SqlValue.text "SEARCHING"), ("hash", SqlValue.null)]],
    tv_shows := [exShowS1, exShowS2],
    tv_show_seasons := [exSeason1, exSeason2, exSeason3],
    movie_seq := 2, show_seq := 3, season_seq := 4 }

/- ------------------------------------------------------------------ -/
/- Generic lemmas about rows and the update machinery                  -/
/- ------------------------------------------------------------------ -/

theorem getField_cons (k : String) (v : SqlValue) (t : Row) (c : String) :
    getField ((k, v) :: t) c = if c = k then v else getField t c := rfl

theorem setField_cons (p : String × SqlValue) (t : Row) (k : String) (v : SqlValue) :
    setField (p :: t) k v = (if p.fst = k then (p.fst, v) else p) :: setField t k v := rfl

theorem setField_keys (r : Row) (k : String) (v : SqlValue) :
    (setField r k v).map Prod.fst = r.map Prod.fst := by
  simp only [setField, List.map_map]
  congr 1
  funext p
  by_cases h : p.fst = k <;> simp [h]

theorem getField_setField_ne (r : Row) (k c : String) (v : SqlValue) (h : c ≠ k) :
    getField (setField r k v) c = getField r c := by
  induction r with
  | nil => rfl
  | cons p t ih =>
      obtain ⟨a, b⟩ := p
      rw [setField_cons]
      by_cases hak : a = k
      · have hca : ¬ c = a := fun hc => h (hc.trans hak)
        rw [if_pos hak, getField_cons, getField_cons, if_neg hca, if_neg hca]
        exact ih
      · rw [if_neg hak, getField_cons, getField_cons]
        by_cases hca : c = a
        · rw [if_pos hca, if_pos hca]
        · rw [if_neg hca, if_neg hca]
          exact ih

theorem setField_not_mem (r : Row) (k : String) (v : SqlValue)
    (h : k ∉ r.map Prod.fst) : setField r k v = r := by
  induction r with
  | nil => rfl
  | cons p t ih =>
      simp only [List.map_cons, List.mem_cons, not_or] at h
      rw [setField_cons, if_neg (fun hk => h.1 hk.symm), ih h.2]

theorem getField_setField_self (r : Row) (k : String) (v : SqlValue)
    (h : k ∈ r.map Prod.fst) : getField (setField r k v) k = v := by
  induction r with
  | nil => simp at h
  | cons p t ih =>
      obtain ⟨a, b⟩ := p
      rw [setField_cons]
      by_cases hak : a = k
      · rw [if_pos hak, getField_cons, if_pos hak.symm]
      · have hm : k ∈ t.map Prod.fst := by
          simp only [List.map_cons, List.mem_cons] at h
          rcases h with h | h
          · exact absurd h.symm hak
          · exact h
        rw [if_neg hak, getField_cons, if_neg (fun hc : k = a => hak hc.symm)]
        exact ih hm

theorem applyKwargs_nil (r : Row) : applyKwargs r [] = r := rfl

theorem applyKwargs_cons (r : Row) (kv : String × SqlValue)
    (rest : List (String × SqlValue)) :
    applyKwargs r (kv :: rest) = applyKwargs (setField r kv.fst kv.snd) rest := rfl

theorem applyKwargs_keys : ∀ (kwargs : List (String × SqlValue)) (r : Row),
    (applyKwargs r kwargs).map Prod.fst = r.map Prod.fst := by
  intro kwargs
  induction kwargs with
  | nil => intro r; rfl
  | cons kv rest ih =>
      intro r
      rw [applyKwargs_cons, ih, setField_keys]

theorem getField_applyKwargs_not_mem : ∀ (kwargs : List (String × SqlValue)) (r : Row)
    (c : String), c ∉ kwargs.map Prod.fst →
    getField (applyKwargs r kwargs) c = getField r c := by
  intro kwargs
  induction kwargs with
  | nil => intro r c _; rfl
  | cons kv rest ih =>
      intro r c h
      simp only [List.map_cons, List.mem_cons, not_or] at h
      rw [applyKwargs_cons, ih (setField r kv.fst kv.snd) c h.2,
        getField_setField_ne r kv.fst c kv.snd h.1]

theorem getField_applyKwargs_mem : ∀ (kwargs : List (String × SqlValue)) (r : Row)
    (k : String) (v : SqlValue), (kwargs.map Prod.fst).Nodup →
    (k, v) ∈ kwargs → k ∈ r.map Prod.fst →
    getField (applyKwargs r kwargs) k = v := by
  intro kwargs
  induction kwargs with
  | nil => intro r k v _ hmem _; simp at hmem
  | cons kv rest ih =>
      intro r k v hnd hmem hk
      simp only [List.map_cons, List.nodup_cons] at hnd
      rcases List.mem_cons.mp hmem with heq | hrest
      · subst heq
        rw [applyKwargs_cons,
          getField_applyKwargs_not_mem rest _ k hnd.1,
          getField_setField_self r k v hk]
      · rw [applyKwargs_cons]
        apply ih _ k v hnd.2 hrest
        rw [setField_keys]
        exact hk

theorem listPairwiseDistinct_cons (c : Row → Row → Bool) (r : Row) (rs : List Row) :
    listPairwiseDistinct c (r :: rs) =
      (rs.all (fun s => !(c r s)) && listPairwiseDistinct c rs) := rfl

theorem listPairwiseDistinct_append_singleton (c : Row → Row → Bool) :
    ∀ (l : List Row) (x : Row),
    listPairwiseDistinct c (l ++ [x]) =
      (listPairwiseDistinct c l && l.all (fun a => !(c a x))) := by
  intro l
  induction l with
  | nil => intro x; simp [listPairwiseDistinct]
  | cons r rs ih =>
      intro x
      rw [List.cons_append, listPairwiseDistinct_cons, listPairwiseDistinct_cons, ih,
        List.all_append]
      simp only [List.all_cons, List.all_nil, Bool.and_true]
      cases (c r x) <;> cases listPairwiseDistinct c rs <;>
        cases rs.all (fun s => !(c r s)) <;> cases rs.all (fun a => !(c a x)) <;> rfl

theorem genericUpdate_empty (allowed : List String) (tableOk : List Row → Bool)
    (rows : List Row) (id : Int) :
    genericUpdate allowed tableOk rows id [] = .error (.pyError emptyKwargsMsg) := rfl

theorem genericUpdate_badkey (allowed : List String) (tableOk : List Row → Bool)
    (rows : List Row) (id : Int) (kwargs : List (String × SqlValue))
    (k : String) (v : SqlValue) (hmem : (k, v) ∈ kwargs) (hk : k ∉ allowed) :
    genericUpdate allowed tableOk rows id kwargs =
      .error (.pyError (unknownColumnMsg allowed)) := by
  have hne : kwargs.isEmpty = false := by
    cases kwargs with
    | nil => simp at hmem
    | cons a l => rfl
  have hfind : (kwargs.find? (fun kv => !(allowed.contains kv.fst))).isSome := by
    rw [List.find?_isSome]
    refine ⟨(k, v), hmem, ?_⟩
    simp [List.contains, List.elem_iff, hk]
  obtain ⟨bad, hbad⟩ := Option.isSome_iff_exists.mp hfind
  unfold genericUpdate
  rw [hne, hbad]
  rfl

theorem genericUpdate_ok_elim (allowed : List String) (tableOk : List Row → Bool)
    (rows : List Row) (id : Int) (kwargs : List (String × SqlValue)) (out : List Row)
    (h : genericUpdate allowed tableOk rows id kwargs = .ok out) :
    kwargs ≠ [] ∧ (∀ kv ∈ kwargs, kv.fst ∈ allowed) ∧
    out = runUpdate rows id kwargs ∧ tableOk (runUpdate rows id kwargs) = true := by
  unfold genericUpdate at h
  split at h
  · exact absurd h (by simp)
  next hne =>
    split at h
    · exact absurd h (by simp)
    next hfind =>
      split at h
      next htab =>
        have hout := Except.ok.inj h
        subst hout
        refine ⟨?_, ?_, rfl, htab⟩
        · intro hnil
          subst hnil
          simp at hne
        · intro kv hkv
          have hc := List.find?_eq_none.mp hfind kv hkv
          simp only [Bool.not_eq_true, Bool.not_eq_false] at hc
          simpa using hc
      · exact absurd h (by simp)

theorem genericUpdate_ok_intro (allowed : List String) (tableOk : List Row → Bool)
    (rows : List Row) (id : Int) (kwargs : List (String × SqlValue))
    (hne : kwargs ≠ []) (hall : ∀ kv ∈ kwargs, kv.fst ∈ allowed)
    (htab : tableOk (runUpdate rows id kwargs) = true) :
    genericUpdate allowed tableOk rows id kwargs = .ok (runUpdate rows id kwargs) := by
  have hne2 : kwargs.isEmpty = false := by
    cases kwargs with
    | nil => exact absurd rfl hne
    | cons a l => rfl
  have hfind : kwargs.find? (fun kv => !(allowed.contains kv.fst)) = none := by
    rw [List.find?_eq_none]
    intro kv hkv
    simp [List.contains, List.elem_iff, hall kv hkv]
  unfold genericUpdate
  rw [hne2, hfind, htab]
  simp

theorem update_movie_ok_elim (db : DB) (id : Int) (kwargs : List (String × SqlValue)) (db2 : DB)
    (h : update_movie db id kwargs = .ok db2) :
    kwargs ≠ [] ∧ (∀ kv ∈ kwargs, kv.fst ∈ movie_table_columns) ∧
    db2 = { db with movies := runUpdate db.movies id kwargs } ∧
    moviesOk (runUpdate db.movies id kwargs) = true := by
  unfold update_movie at h
  cases hg : genericUpdate movie_table_columns moviesOk db.movies id kwargs with
  | error e => rw [hg] at h; exact absurd h (by simp)
  | ok rows =>
      rw [hg] at h
      obtain ⟨h1, h2, h3, h4⟩ := genericUpdate_ok_elim _ _ _ _ _ _ hg
      have hdb2 := Except.ok.inj h
      subst h3
      exact ⟨h1, h2, hdb2.symm, h4⟩

theorem update_tv_show_ok_elim (db : DB) (id : Int) (kwargs : List (String × SqlValue)) (db2 : DB)
    (h : update_tv_show db id kwargs = .ok db2) :
    kwargs ≠ [] ∧ (∀ kv ∈ kwargs, kv.fst ∈ tv_shows_table_columns) ∧
    db2 = { db with tv_shows := runUpdate db.tv_shows id kwargs } ∧
    tvShowsOk (runUpdate db.tv_shows id kwargs) = true := by
  unfold update_tv_show at h
  cases hg : genericUpdate tv_shows_table_columns tvShowsOk db.tv_shows id kwargs with
  | error e => rw [hg] at h; exact absurd h (by simp)
  | ok rows =>
      rw [hg] at h
      obtain ⟨h1, h2, h3, h4⟩ := genericUpdate_ok_elim _ _ _ _ _ _ hg
      have hdb2 := Except.ok.inj h
      subst h3
      exact ⟨h1, h2, hdb2.symm, h4⟩

theorem update_show_season_ok_elim (db : DB) (id : Int) (kwargs : List (String × SqlValue))
    (db2 : DB) (h : update_show_season db id kwargs = .ok db2) :
    kwargs ≠ [] ∧ (∀ kv ∈ kwargs, kv.fst ∈ tv_show_season_table_columns) ∧
    db2 = { db with tv_show_seasons := runUpdate db.tv_show_seasons id kwargs } ∧
    seasonsOk (runUpdate db.tv_show_seasons id kwargs) = true := by
  unfold update_show_season at h
  cases hg : genericUpdate tv_show_season_table_columns seasonsOk db.tv_show_seasons id kwargs with
  | error e => rw [hg] at h; exact absurd h (by simp)
  | ok rows =>
      rw [hg] at h
      obtain ⟨h1, h2, h3, h4⟩ := genericUpdate_ok_elim _ _ _ _ _ _ hg
      have hdb2 := Except.ok.inj h
      subst h3
      exact ⟨h1, h2, hdb2.symm, h4⟩

/- ------------------------------------------------------------------ -/
/- Claims                                                              -/
/- ------------------------------------------------------------------ -/

/-- C1 (counterexample): the "unknown column" failure of the update path
does NOT name the offending key.  Calling `update_movie` on a store with
the unknown key "bogus" raises the Exception whose message lists only the
allow-list; the substring "bogus" does not occur in that message, so the
error cannot be said to name the offending key. -/
theorem C1_counterexample :
    update_movie exampleDB 1 [("bogus", SqlValue.int 0)] =
      Except.error (DBError.pyError (unknownColumnMsg movie_table_columns)) ∧
    ¬ ("bogus".toList <:+: (unknownColumnMsg movie_table_columns).toList) := by
  constructor
  · decide
  · decide

/-- C1 (amended): on every partial-update method, an empty field mapping
fails with the "At least one argument must be specified" Exception, and a
mapping containing any key outside the per-entity allow-list fails with
the Exception naming the allowed set (but not the offending key — the
message is the same whatever the key is).  In both cases the function
returns an error and no updated database, so nothing is written. -/
theorem C1_update_validation (db : DB) (id : Int) (kwargs : List (String × SqlValue))
    (k : String) (v : SqlValue) :
    (update_movie db id [] = .error (.pyError emptyKwargsMsg) ∧
     update_tv_show db id [] = .error (.pyError emptyKwargsMsg) ∧
     update_show_season db id [] = .error (.pyError emptyKwargsMsg)) ∧
    ((k, v) ∈ kwargs → k ∉ movie_table_columns →
      update_movie db id kwargs = .error (.pyError (unknownColumnMsg movie_table_columns))) ∧
    ((k, v) ∈ kwargs → k ∉ tv_shows_table_columns →
      update_tv_show db id kwargs = .error (.pyError (unknownColumnMsg tv_shows_table_columns))) ∧
    ((k, v) ∈ kwargs → k ∉ tv_show_season_table_columns →
      update_show_season db id kwargs =
        .error (.pyError (unknownColumnMsg tv_show_season_table_columns))) := by
  refine ⟨⟨rfl, rfl, rfl⟩, ?_, ?_, ?_⟩
  · intro hmem hk
    unfold update_movie
    rw [genericUpdate_badkey movie_table_columns moviesOk db.movies id kwargs k v hmem hk]
  · intro hmem hk
    unfold update_tv_show
    rw [genericUpdate_badkey tv_shows_table_columns tvShowsOk db.tv_shows id kwargs k v hmem hk]
  · intro hmem hk
    unfold update_show_season
    rw [genericUpdate_badkey tv_show_season_table_columns seasonsOk db.tv_show_seasons id kwargs
      k v hmem hk]

/-- C1 witness: the amended statement at a concrete input. -/
theorem C1_witness :
    update_movie exampleDB 1 [("bogus", SqlValue.int 0)] =
      Except.error (DBError.pyError (unknownColumnMsg movie_table_columns)) :=
  (C1_update_validation exampleDB 1 [("bogus", SqlValue.int 0)] "bogus" (SqlValue.int 0)).2.1
    (by decide) (by decide)

theorem list_all_congr (p q : Row → Bool) (l : List Row) (h : ∀ a ∈ l, p a = q a) :
    l.all p = l.all q := by
  induction l with
  | nil => rfl
  | cons r rs ih =>
      rw [List.all_cons, List.all_cons, h r (List.mem_cons_self r rs),
        ih (fun a ha => h a (List.mem_cons_of_mem r ha))]

theorem listPairwiseDistinct_map (c : Row → Row → Bool) (g : Row → Row)
    (hc : ∀ a b, c (g a) (g b) = c a b) :
    ∀ l : List Row, listPairwiseDistinct c (l.map g) = listPairwiseDistinct c l := by
  intro l
  induction l with
  | nil => rfl
  | cons r rs ih =>
      rw [List.map_cons, listPairwiseDistinct_cons, listPairwiseDistinct_cons, ih,
        List.all_map]
      have : rs.all ((fun s => !(c (g r) s)) ∘ g) = rs.all (fun s => !(c r s)) :=
        list_all_congr _ _ rs (fun a _ => by simp [Function.comp, hc])
      rw [this]

theorem mem_of_isNull_false (r : Row) (c : String)
    (h : isNull (getField r c) = false) : c ∈ r.map Prod.fst := by
  induction r with
  | nil => simp [getField, isNull] at h
  | cons p t ih =>
      obtain ⟨a, b⟩ := p
      rw [getField_cons] at h
      by_cases hca : c = a
      · simp [hca]
      · rw [if_neg hca] at h
        simp only [List.map_cons, List.mem_cons]
        exact Or.inr (ih h)

theorem applyKwargs_single (r : Row) (k : String) (v : SqlValue) :
    applyKwargs r [(k, v)] = setField r k v := rfl

theorem movieRowOk_setField_state (r : Row) (s : String) (h : movieRowOk r = true) :
    movieRowOk (setField r "state" (SqlValue.text s)) = true := by
  by_cases hmem : "state" ∈ r.map Prod.fst
  · have hname := getField_setField_ne r "state" "name" (SqlValue.text s) (by decide)
    have hmax := getField_setField_ne r "state" "max_size_mb" (SqlValue.text s) (by decide)
    have hrp := getField_setField_ne r "state" "resolution_profile" (SqlValue.text s) (by decide)
    have hst := getField_setField_self r "state" (SqlValue.text s) hmem
    unfold movieRowOk at h ⊢
    rw [hname, hmax, hrp, hst]
    simp only [Bool.and_eq_true] at h ⊢
    exact ⟨h.1, rfl⟩
  · rw [setField_not_mem _ _ _ hmem]
    exact h

theorem tvShowRowOk_setField_state (r : Row) (s : String) (h : tvShowRowOk r = true) :
    tvShowRowOk (setField r "state" (SqlValue.text s)) = true := by
  by_cases hmem : "state" ∈ r.map Prod.fst
  · have hname := getField_setField_ne r "state" "name" (SqlValue.text s) (by decide)
    have hmax := getField_setField_ne r "state" "max_episode_size_mb" (SqlValue.text s) (by decide)
    have hrp := getField_setField_ne r "state" "resolution_profile" (SqlValue.text s) (by decide)
    have hst := getField_setField_self r "state" (SqlValue.text s) hmem
    unfold tvShowRowOk at h ⊢
    rw [hname, hmax, hrp, hst]
    simp only [Bool.and_eq_true] at h ⊢
    exact ⟨h.1, rfl⟩
  · rw [setField_not_mem _ _ _ hmem]
    exact h

theorem seasonRowOk_setField_state (r : Row) (s : String) (h : seasonRowOk r = true) :
    seasonRowOk (setField r "state" (SqlValue.text s)) = true := by
  by_cases hmem : "state" ∈ r.map Prod.fst
  · have hsn := getField_setField_ne r "state" "season_number" (SqlValue.text s) (by decide)
    have hep := getField_setField_ne r "state" "season_number_episodes" (SqlValue.text s)
      (by decide)
    have hst := getField_setField_self r "state" (SqlValue.text s) hmem
    unfold seasonRowOk at h ⊢
    rw [hsn, hep, hst]
    simp only [Bool.and_eq_true] at h ⊢
    exact ⟨h.1, rfl⟩
  · rw [setField_not_mem _ _ _ hmem]
    exact h

theorem moviesOk_runUpdate_state (rows : List Row) (id : Int) (s : String)
    (h : moviesOk rows = true) :
    moviesOk (runUpdate rows id [("state", SqlValue.text s)]) = true := by
  have hgname : ∀ a : Row,
      getField (if sqlEq (getField a "id") (SqlValue.int id) then
        applyKwargs a [("state", SqlValue.text s)] else a) "name" = getField a "name" := by
    intro a
    by_cases hm : sqlEq (getField a "id") (SqlValue.int id) = true
    · rw [if_pos hm, applyKwargs_single, getField_setField_ne a "state" "name" _ (by decide)]
    · rw [if_neg hm]
  unfold moviesOk at h ⊢
  rw [Bool.and_eq_true] at h
  unfold runUpdate
  rw [Bool.and_eq_true]
  constructor
  · rw [List.all_map, List.all_eq_true]
    intro r hr
    have hrok : movieRowOk r = true := List.all_eq_true.mp h.1 r hr
    by_cases hm : sqlEq (getField r "id") (SqlValue.int id) = true
    · simp only [Function.comp, if_pos hm, applyKwargs_single]
      exact movieRowOk_setField_state r s hrok
    · simp only [Function.comp, if_neg hm]
      exact hrok
  · rw [listPairwiseDistinct_map movieConflict _
      (fun a b => by unfold movieConflict; rw [hgname a, hgname b])]
    exact h.2

theorem tvShowsOk_runUpdate_state (rows : List Row) (id : Int) (s : String)
    (h : tvShowsOk rows = true) :
    tvShowsOk (runUpdate rows id [("state", SqlValue.text s)]) = true := by
  have hgname : ∀ a : Row,
      getField (if sqlEq (getField a "id") (SqlValue.int id) then
        applyKwargs a [("state", SqlValue.text s)] else a) "name" = getField a "name" := by
    intro a
    by_cases hm : sqlEq (getField a "id") (SqlValue.int id) = true
    · rw [if_pos hm, applyKwargs_single, getField_setField_ne a "state" "name" _ (by decide)]
    · rw [if_neg hm]
  unfold tvShowsOk at h ⊢
  rw [Bool.and_eq_true] at h
  unfold runUpdate
  rw [Bool.and_eq_true]
  constructor
  · rw [List.all_map, List.all_eq_true]
    intro r hr
    have hrok : tvShowRowOk r = true := List.all_eq_true.mp h.1 r hr
    by_cases hm : sqlEq (getField r "id") (SqlValue.int id) = true
    · simp only [Function.comp, if_pos hm, applyKwargs_single]
      exact tvShowRowOk_setField_state r s hrok
    · simp only [Function.comp, if_neg hm]
      exact hrok
  · rw [listPairwiseDistinct_map tvShowConflict _
      (fun a b => by unfold tvShowConflict; rw [hgname a, hgname b])]
    exact h.2

theorem seasonsOk_runUpdate_state (rows : List Row) (id : Int) (s : String)
    (h : seasonsOk rows = true) :
    seasonsOk (runUpdate rows id [("state", SqlValue.text s)]) = true := by
  have hgsid : ∀ (a : Row) (c : String), c ≠ "state" →
      getField (if sqlEq (getField a "id") (SqlValue.int id) then
        applyKwargs a [("state", SqlValue.text s)] else a) c = getField a c := by
    intro a c hc
    by_cases hm : sqlEq (getField a "id") (SqlValue.int id) = true
    · rw [if_pos hm, applyKwargs_single, getField_setField_ne a "state" c _ hc]
    · rw [if_neg hm]
  unfold seasonsOk at h ⊢
  rw [Bool.and_eq_true] at h
  unfold runUpdate
  rw [Bool.and_eq_true]
  constructor
  · rw [List.all_map, List.all_eq_true]
    intro r hr
    have hrok : seasonRowOk r = true := List.all_eq_true.mp h.1 r hr
    by_cases hm : sqlEq (getField r "id") (SqlValue.int id) = true
    · simp only [Function.comp, if_pos hm, applyKwargs_single]
      exact seasonRowOk_setField_state r s hrok
    · simp only [Function.comp, if_neg hm]
      exact hrok
  · rw [listPairwiseDistinct_map seasonConflict _
      (fun a b => by
        unfold seasonConflict
        rw [hgsid a "show_id" (by decide), hgsid b "show_id" (by decide),
          hgsid a "season_number" (by decide), hgsid b "season_number" (by decide)])]
    exact h.2

/-- C2 (counterexample): the update path performs NO validation of the
value written to the state column.  `update_movie` with state = "BOGUS"
(outside the enumerated set) succeeds and commits the bogus value instead
of failing fast with an invalid-state error. -/
theorem C2_counterexample :
    torrent_states.contains "BOGUS" = false ∧
    update_movie exampleDB 1 [("state", SqlValue.text "BOGUS")] =
      Except.ok exampleDBBogus ∧
    getField exampleDBBogus.movies.headI "state" = SqlValue.text "BOGUS" := by
  refine ⟨by decide, by decide, by decide⟩

/-- C2 (amended): no update call validates the state value.  For every
string `s` — in particular any `s` outside the enumerated state set — an
update whose mapping is `{state: s}` passes the key allow-list check,
succeeds (the declared table constraints cannot be violated by a TEXT
state), commits, and the matched rows' state column holds `s` afterwards. -/
theorem C2_state_not_validated (db : DB) (id : Int) (s : String)
    (hm : moviesOk db.movies = true) (ht : tvShowsOk db.tv_shows = true)
    (hs : seasonsOk db.tv_show_seasons = true) :
    update_movie db id [("state", SqlValue.text s)] =
      .ok { db with movies := runUpdate db.movies id [("state", SqlValue.text s)] } ∧
    update_tv_show db id [("state", SqlValue.text s)] =
      .ok { db with tv_shows := runUpdate db.tv_shows id [("state", SqlValue.text s)] } ∧
    update_show_season db id [("state", SqlValue.text s)] =
      .ok { db with
            tv_show_seasons := runUpdate db.tv_show_seasons id [("state", SqlValue.text s)] } ∧
    (∀ r ∈ db.movies, sqlEq (getField r "id") (SqlValue.int id) = true →
      getField (applyKwargs r [("state", SqlValue.text s)]) "state" = SqlValue.text s) := by
  have hkeys1 : ∀ kv ∈ [("state", SqlValue.text s)], kv.fst ∈ movie_table_columns := by
    intro kv hkv
    rcases List.mem_singleton.mp hkv with rfl
    show "state" ∈ movie_table_columns
    decide
  have hkeys2 : ∀ kv ∈ [("state", SqlValue.text s)], kv.fst ∈ tv_shows_table_columns := by
    intro kv hkv
    rcases List.mem_singleton.mp hkv with rfl
    show "state" ∈ tv_shows_table_columns
    decide
  have hkeys3 : ∀ kv ∈ [("state", SqlValue.text s)], kv.fst ∈ tv_show_season_table_columns := by
    intro kv hkv
    rcases List.mem_singleton.mp hkv with rfl
    show "state" ∈ tv_show_season_table_columns
    decide
  refine ⟨?_, ?_, ?_, ?_⟩
  · have hg := genericUpdate_ok_intro movie_table_columns moviesOk db.movies id
      [("state", SqlValue.text s)] (by simp) hkeys1 (moviesOk_runUpdate_state db.movies id s hm)
    unfold update_movie
    rw [hg]
  · have hg := genericUpdate_ok_intro tv_shows_table_columns tvShowsOk db.tv_shows id
      [("state", SqlValue.text s)] (by simp) hkeys2 (tvShowsOk_runUpdate_state db.tv_shows id s ht)
    unfold update_tv_show
    rw [hg]
  · have hg := genericUpdate_ok_intro tv_show_season_table_columns seasonsOk db.tv_show_seasons id
      [("state", SqlValue.text s)] (by simp) hkeys3
      (seasonsOk_runUpdate_state db.tv_show_seasons id s hs)
    unfold update_show_season
    rw [hg]
  · intro r hr _
    have hrok : movieRowOk r = true := by
      unfold moviesOk at hm
      rw [Bool.and_eq_true] at hm
      exact List.all_eq_true.mp hm.1 r hr
    have hstate : isNull (getField r "state") = false := by
      unfold movieRowOk at hrok
      simp only [Bool.and_eq_true, Bool.not_eq_true'] at hrok
      exact hrok.2
    rw [applyKwargs_single]
    exact getField_setField_self r "state" (SqlValue.text s)
      (mem_of_isNull_false r "state" hstate)

/-- C2 witness: the amended statement at a concrete input with the
non-enumerated state value "BOGUS". -/
theorem C2_witness :
    update_movie exampleDB 1 [("state", SqlValue.text "BOGUS")] =
      Except.ok { exampleDB with
        movies := runUpdate exampleDB.movies 1 [("state", SqlValue.text "BOGUS")] } ∧
    torrent_states.contains "BOGUS" = false :=
  ⟨(C2_state_not_validated exampleDB 1 "BOGUS" (by decide) (by decide) (by decide)).1,
   by decide⟩

/-- C5: a successful partial update changes exactly the named columns of
the rows matching `id` (each named column takes the supplied value, every
unnamed column keeps its value), leaves all non-matching rows identical,
and leaves the two other tables and all sequence counters untouched — for
each of `update_movie`, `update_tv_show` and `update_show_season`.
(The key-uniqueness hypothesis reflects Python `**kwargs`, whose keys are
necessarily distinct; `rowWF` says the row has its table's schema columns.) -/
theorem C5_update_frame :
    (∀ (db : DB) (id : Int) (kwargs : List (String × SqlValue)) (db2 : DB),
      (kwargs.map Prod.fst).Nodup → update_movie db id kwargs = .ok db2 →
      db2.tv_shows = db.tv_shows ∧ db2.tv_show_seasons = db.tv_show_seasons ∧
      db2.movie_seq = db.movie_seq ∧ db2.show_seq = db.show_seq ∧
      db2.season_seq = db.season_seq ∧
      db2.movies = db.movies.map (fun r =>
        if sqlEq (getField r "id") (SqlValue.int id) then applyKwargs r kwargs else r) ∧
      (∀ r ∈ db.movies, rowWF movieCols r →
        (∀ k v, (k, v) ∈ kwargs → getField (applyKwargs r kwargs) k = v) ∧
        (∀ c, c ∉ kwargs.map Prod.fst →
          getField (applyKwargs r kwargs) c = getField r c))) ∧
    (∀ (db : DB) (id : Int) (kwargs : List (String × SqlValue)) (db2 : DB),
      (kwargs.map Prod.fst).Nodup → update_tv_show db id kwargs = .ok db2 →
      db2.movies = db.movies ∧ db2.tv_show_seasons = db.tv_show_seasons ∧
      db2.movie_seq = db.movie_seq ∧ db2.show_seq = db.show_seq ∧
      db2.season_seq = db.season_seq ∧
      db2.tv_shows = db.tv_shows.map (fun r =>
        if sqlEq (getField r "id") (SqlValue.int id) then applyKwargs r kwargs else r) ∧
      (∀ r ∈ db.tv_shows, rowWF tvShowCols r →
        (∀ k v, (k, v) ∈ kwargs → getField (applyKwargs r kwargs) k = v) ∧
        (∀ c, c ∉ kwargs.map Prod.fst →
          getField (applyKwargs r kwargs) c = getField r c))) ∧
    (∀ (db : DB) (id : Int) (kwargs : List (String × SqlValue)) (db2 : DB),
      (kwargs.map Prod.fst).Nodup → update_show_season db id kwargs = .ok db2 →
      db2.movies = db.movies ∧ db2.tv_shows = db.tv_shows ∧
      db2.movie_seq = db.movie_seq ∧ db2.show_seq = db.show_seq ∧
      db2.season_seq = db.season_seq ∧
      db2.tv_show_seasons = db.tv_show_seasons.map (fun r =>
        if sqlEq (getField r "id") (SqlValue.int id) then applyKwargs r kwargs else r) ∧
      (∀ r ∈ db.tv_show_seasons, rowWF seasonCols r →
        (∀ k v, (k, v) ∈ kwargs → getField (applyKwargs r kwargs) k = v) ∧
        (∀ c, c ∉ kwargs.map Prod.fst →
          getField (applyKwargs r kwargs) c = getField r c))) := by
  refine ⟨?_, ?_, ?_⟩
  · intro db id kwargs db2 hnd h
    obtain ⟨hne, hall, hdb2, hok⟩ := update_movie_ok_elim db id kwargs db2 h
    subst hdb2
    refine ⟨rfl, rfl, rfl, rfl, rfl, rfl, ?_⟩
    intro r hr hwf
    constructor
    · intro k v hkv
      apply getField_applyKwargs_mem kwargs r k v hnd hkv
      unfold rowWF at hwf
      rw [hwf]
      have hsub : ∀ x ∈ movie_table_columns, x ∈ movieCols := by decide
      exact hsub k (hall (k, v) hkv)
    · intro c hc
      exact getField_applyKwargs_not_mem kwargs r c hc
  · intro db id kwargs db2 hnd h
    obtain ⟨hne, hall, hdb2, hok⟩ := update_tv_show_ok_elim db id kwargs db2 h
    subst hdb2
    refine ⟨rfl, rfl, rfl, rfl, rfl, rfl, ?_⟩
    intro r hr hwf
    constructor
    · intro k v hkv
      apply getField_applyKwargs_mem kwargs r k v hnd hkv
      unfold rowWF at hwf
      rw [hwf]
      have hsub : ∀ x ∈ tv_shows_table_columns, x ∈ tvShowCols := by decide
      exact hsub k (hall (k, v) hkv)
    · intro c hc
      exact getField_applyKwargs_not_mem kwargs r c hc
  · intro db id kwargs db2 hnd h
    obtain ⟨hne, hall, hdb2, hok⟩ := update_show_season_ok_elim db id kwargs db2 h
    subst hdb2
    refine ⟨rfl, rfl, rfl, rfl, rfl, rfl, ?_⟩
    intro r hr hwf
    constructor
    · intro k v hkv
      apply getField_applyKwargs_mem kwargs r k v hnd hkv
      unfold rowWF at hwf
      rw [hwf]
      have hsub : ∀ x ∈ tv_show_season_table_columns, x ∈ seasonCols := by decide
      exact hsub k (hall (k, v) hkv)
    · intro c hc
      exact getField_applyKwargs_not_mem kwargs r c hc

/-- C5 witness: the frame property at a concrete successful update. -/
theorem C5_witness :
    ({ exampleDB with
        movies := runUpdate exampleDB.movies 1 [("state", SqlValue.text "DOWNLOADING")] } :
      DB).tv_shows = exampleDB.tv_shows ∧
    ({ exampleDB with
        movies := runUpdate exampleDB.movies 1 [("state", SqlValue.text "DOWNLOADING")] } :
      DB).movies = exampleDB.movies.map (fun r =>
        if sqlEq (getField r "id") (SqlValue.int 1) then
          applyKwargs r [("state", SqlValue.text "DOWNLOADING")] else r) := by
  have h := C5_update_frame.1 exampleDB 1 [("state", SqlValue.text "DOWNLOADING")]
    { exampleDB with
      movies := runUpdate exampleDB.movies 1 [("state", SqlValue.text "DOWNLOADING")] }
    (by decide) (by decide)
  exact ⟨h.1, h.2.2.2.2.2.1⟩

theorem sqlEq_text_decide (v : SqlValue) (s : String) :
    sqlEq v (SqlValue.text s) = decide (v = SqlValue.text s) := by
  cases v with
  | null => simp [sqlEq]
  | int i => simp [sqlEq]
  | text a => simp [sqlEq]

/-- C4: the state-filtered reads validate the state argument against the
enumerated set before querying — an invalid state raises the
"Non allowed state=…!" Exception (no query result is produced) — and for
a valid state they return exactly the rows of the respective table whose
state column equals the argument. -/
theorem C4_get_with_state (db : DB) (state : String) :
    (state ∉ torrent_states →
      get_movies_with_state db state =
        .error (.pyError ("Non allowed state=" ++ state ++ "!")) ∧
      get_tv_shows_with_state db state =
        .error (.pyError ("Non allowed state=" ++ state ++ "!"))) ∧
    (state ∈ torrent_states →
      get_movies_with_state db state =
        .ok (db.movies.filter (fun r => getField r "state" = SqlValue.text state)) ∧
      get_tv_shows_with_state db state =
        .ok (db.tv_shows.filter (fun r => getField r "state" = SqlValue.text state))) := by
  constructor
  · intro hnot
    have hc : torrent_states.contains state = false := by
      rw [Bool.eq_false_iff]
      intro hc
      exact hnot (by simpa using hc)
    constructor
    · unfold get_movies_with_state
      rw [hc]
      rfl
    · unfold get_tv_shows_with_state
      rw [hc]
      rfl
  · intro hmem
    have hc : torrent_states.contains state = true := by simpa using hmem
    have hfilter : ∀ rows : List Row,
        rows.filter (fun r => sqlEq (getField r "state") (SqlValue.text state)) =
        rows.filter (fun r => decide (getField r "state" = SqlValue.text state)) := by
      intro rows
      apply List.filter_congr
      intro r _
      exact sqlEq_text_decide (getField r "state") state
    constructor
    · unfold get_movies_with_state
      rw [hc]
      simp only [if_true]
      rw [hfilter]
    · unfold get_tv_shows_with_state
      rw [hc]
      simp only [if_true]
      rw [hfilter]

/-- C4 witness: a non-enumerated state fails, a valid one filters. -/
theorem C4_witness :
    get_movies_with_state exampleDB "NOT_A_STATE" =
      Except.error (DBError.pyError ("Non allowed state=" ++ "NOT_A_STATE" ++ "!")) ∧
    get_movies_with_state exampleDB "SEARCHING" =
      Except.ok (exampleDB.movies.filter
        (fun r => getField r "state" = SqlValue.text "SEARCHING")) :=
  ⟨((C4_get_with_state exampleDB "NOT_A_STATE").1 (by decide)).1,
   ((C4_get_with_state exampleDB "SEARCHING").2 (by decide)).1⟩

theorem newMovieRow_id (db : DB) (n m r : SqlValue) :
    getField (newMovieRow db n m r) "id" = SqlValue.int db.movie_seq := rfl

theorem newMovieRow_name (db : DB) (n m r : SqlValue) :
    getField (newMovieRow db n m r) "name" = n := rfl

theorem newTvShowRow_id (db : DB) (n m r : SqlValue) :
    getField (newTvShowRow db n m r) "id" = SqlValue.int db.show_seq := rfl

theorem newTvShowRow_name (db : DB) (n m r : SqlValue) :
    getField (newTvShowRow db n m r) "name" = n := rfl

theorem newSeasonRow_show_id (db : DB) (sid sn ep : SqlValue) :
    getField (newSeasonRow db sid sn ep) "show_id" = sid := rfl

theorem newSeasonRow_sn (db : DB) (sid sn ep : SqlValue) :
    getField (newSeasonRow db sid sn ep) "season_number" = sn := rfl

theorem newSeasonRow_ep (db : DB) (sid sn ep : SqlValue) :
    getField (newSeasonRow db sid sn ep) "season_number_episodes" = ep := rfl

theorem all_not_conflict_false (c : Row → Row → Bool) (rows : List Row) (x r : Row)
    (hr : r ∈ rows) (hc : c r x = true) :
    rows.all (fun a => !(c a x)) = false := by
  rw [Bool.eq_false_iff]
  intro hall
  have := List.all_eq_true.mp hall r hr
  rw [hc] at this
  simp at this

theorem add_tv_show_season_ok_intro (db : DB) (sid sn ep : SqlValue)
    (hok : seasonsOk db.tv_show_seasons = true)
    (hsn : isNull sn = false) (hep : isNull ep = false)
    (hnoconf : ∀ r ∈ db.tv_show_seasons,
      (sqlEq (getField r "show_id") sid && sqlEq (getField r "season_number") sn) = false) :
    add_tv_show_season db sid sn ep = .ok { db with
      tv_show_seasons := db.tv_show_seasons ++ [newSeasonRow db sid sn ep],
      season_seq := db.season_seq + 1 } := by
  unfold seasonsOk at hok
  rw [Bool.and_eq_true] at hok
  have hnew : seasonRowOk (newSeasonRow db sid sn ep) = true := by
    unfold seasonRowOk
    rw [newSeasonRow_sn, newSeasonRow_ep, hsn, hep]
    rfl
  have hall2 : (db.tv_show_seasons ++ [newSeasonRow db sid sn ep]).all seasonRowOk = true := by
    rw [List.all_append, hok.1, List.all_cons, List.all_nil, hnew]
    rfl
  have hpd : listPairwiseDistinct seasonConflict
      (db.tv_show_seasons ++ [newSeasonRow db sid sn ep]) = true := by
    rw [listPairwiseDistinct_append_singleton, hok.2, Bool.true_and, List.all_eq_true]
    intro a ha
    unfold seasonConflict
    rw [newSeasonRow_show_id, newSeasonRow_sn, hnoconf a ha]
    rfl
  have hfin : seasonsOk (db.tv_show_seasons ++ [newSeasonRow db sid sn ep]) = true := by
    unfold seasonsOk
    rw [hall2, hpd]
    rfl
  unfold add_tv_show_season
  rw [hfin]
  rfl

/-- C3: each create operation surfaces a uniqueness violation as
`sqlite3.IntegrityError` — a failure distinguishable from the plain
`Exception` used elsewhere — and the offending row is not inserted (the
store is returned unchanged inside the error path); inserting a season
with an already-present (show_id, season_number) pair fails this way,
while the same season_number under a different (non-conflicting) show_id
succeeds. -/
theorem C3_unique_constraints (db : DB) (nm msz rp sid sn ep : SqlValue) :
    ((∃ r ∈ db.movies, sqlEq (getField r "name") nm = true) →
      add_movie db nm msz rp = .error (.integrityError "constraint failed: movies")) ∧
    ((∃ r ∈ db.tv_shows, sqlEq (getField r "name") nm = true) →
      add_tv_show db nm msz rp = .error (.integrityError "constraint failed: tv_shows")) ∧
    ((∃ r ∈ db.tv_show_seasons,
        (sqlEq (getField r "show_id") sid && sqlEq (getField r "season_number") sn) = true) →
      add_tv_show_season db sid sn ep =
        .error (.integrityError "constraint failed: tv_show_seasons")) ∧
    (seasonsOk db.tv_show_seasons = true → isNull sn = false → isNull ep = false →
      (∀ r ∈ db.tv_show_seasons,
        (sqlEq (getField r "show_id") sid && sqlEq (getField r "season_number") sn) = false) →
      add_tv_show_season db sid sn ep = .ok { db with
        tv_show_seasons := db.tv_show_seasons ++ [newSeasonRow db sid sn ep],
        season_seq := db.season_seq + 1 }) ∧
    (∀ m1 m2 : String, DBError.integrityError m1 ≠ DBError.pyError m2) := by
  refine ⟨?_, ?_, ?_, ?_, ?_⟩
  · rintro ⟨r, hr, hconf⟩
    have hc : movieConflict r (newMovieRow db nm msz rp) = true := by
      unfold movieConflict
      rw [newMovieRow_name]
      exact hconf
    have hpd : listPairwiseDistinct movieConflict
        (db.movies ++ [newMovieRow db nm msz rp]) = false := by
      rw [listPairwiseDistinct_append_singleton,
        all_not_conflict_false movieConflict db.movies _ r hr hc, Bool.and_false]
    have hbad : moviesOk (db.movies ++ [newMovieRow db nm msz rp]) = false := by
      unfold moviesOk
      rw [hpd, Bool.and_false]
    unfold add_movie
    rw [hbad]
    rfl
  · rintro ⟨r, hr, hconf⟩
    have hc : tvShowConflict r (newTvShowRow db nm msz rp) = true := by
      unfold tvShowConflict
      rw [newTvShowRow_name]
      exact hconf
    have hpd : listPairwiseDistinct tvShowConflict
        (db.tv_shows ++ [newTvShowRow db nm msz rp]) = false := by
      rw [listPairwiseDistinct_append_singleton,
        all_not_conflict_false tvShowConflict db.tv_shows _ r hr hc, Bool.and_false]
    have hbad : tvShowsOk (db.tv_shows ++ [newTvShowRow db nm msz rp]) = false := by
      unfold tvShowsOk
      rw [hpd, Bool.and_false]
    unfold add_tv_show
    rw [hbad]
    rfl
  · rintro ⟨r, hr, hconf⟩
    have hc : seasonConflict r (newSeasonRow db sid sn ep) = true := by
      unfold seasonConflict
      rw [newSeasonRow_show_id, newSeasonRow_sn]
      exact hconf
    have hpd : listPairwiseDistinct seasonConflict
        (db.tv_show_seasons ++ [newSeasonRow db sid sn ep]) = false := by
      rw [listPairwiseDistinct_append_singleton,
        all_not_conflict_false seasonConflict db.tv_show_seasons _ r hr hc, Bool.and_false]
    have hbad : seasonsOk (db.tv_show_seasons ++ [newSeasonRow db sid sn ep]) = false := by
      unfold seasonsOk
      rw [hpd, Bool.and_false]
    unfold add_tv_show_season
    rw [hbad]
    rfl
  · intro hok hsn hep hnoconf
    exact add_tv_show_season_ok_intro db sid sn ep hok hsn hep hnoconf
  · intro m1 m2 hcontra
    exact DBError.noConfusion hcontra

/-- C3 witness: duplicate movie name and duplicate (show_id, season_number)
fail with IntegrityError; the same season_number under another show_id
succeeds. -/
theorem C3_witness :
    add_movie exJoinDB (SqlValue.text "A") (SqlValue.int 5) (SqlValue.text "720p") =
      Except.error (DBError.integrityError "constraint failed: movies") ∧
    add_tv_show_season exJoinDB (SqlValue.int 1) (SqlValue.int 1) (SqlValue.int 5) =
      Except.error (DBError.integrityError "constraint failed: tv_show_seasons") ∧
    add_tv_show_season exJoinDB (SqlValue.int 2) (SqlValue.int 1) (SqlValue.int 5) =
      Except.ok { exJoinDB with
        tv_show_seasons := exJoinDB.tv_show_seasons ++
          [newSeasonRow exJoinDB (SqlValue.int 2) (SqlValue.int 1) (SqlValue.int 5)],
        season_seq := exJoinDB.season_seq + 1 } := by
  refine ⟨?_, ?_, ?_⟩
  · exact (C3_unique_constraints exJoinDB (SqlValue.text "A") (SqlValue.int 5)
      (SqlValue.text "720p") SqlValue.null SqlValue.null SqlValue.null).1 (by decide)
  · exact (C3_unique_constraints exJoinDB SqlValue.null SqlValue.null SqlValue.null
      (SqlValue.int 1) (SqlValue.int 1) (SqlValue.int 5)).2.2.1 (by decide)
  · exact (C3_unique_constraints exJoinDB SqlValue.null SqlValue.null SqlValue.null
      (SqlValue.int 2) (SqlValue.int 1) (SqlValue.int 5)).2.2.2.1
      (by decide) (by decide) (by decide) (by decide)

theorem find?_append_none (p : Row → Bool) (l1 l2 : List Row)
    (h : ∀ x ∈ l1, p x = false) : (l1 ++ l2).find? p = l2.find? p := by
  induction l1 with
  | nil => rfl
  | cons a t ih =>
      rw [List.cons_append, List.find?_cons_of_neg _ (by
        rw [h a (List.mem_cons_self a t)]
        exact Bool.false_ne_true)]
      exact ih (fun x hx => h x (List.mem_cons_of_mem a hx))

theorem add_movie_ok_elim (db : DB) (n m r : SqlValue) (db2 : DB)
    (h : add_movie db n m r = .ok db2) :
    db2 = { db with
            movies := db.movies ++ [newMovieRow db n m r],
            movie_seq := db.movie_seq + 1 } := by
  unfold add_movie at h
  split at h
  · exact (Except.ok.inj h).symm
  · exact absurd h (by simp)

theorem add_tv_show_ok_elim (db : DB) (n m r : SqlValue) (db2 : DB)
    (h : add_tv_show db n m r = .ok db2) :
    db2 = { db with
            tv_shows := db.tv_shows ++ [newTvShowRow db n m r],
            show_seq := db.show_seq + 1 } := by
  unfold add_tv_show at h
  split at h
  · exact (Except.ok.inj h).symm
  · exact absurd h (by simp)

theorem add_tv_show_season_ok_elim (db : DB) (sid sn ep : SqlValue) (db2 : DB)
    (h : add_tv_show_season db sid sn ep = .ok db2) :
    db2 = { db with
            tv_show_seasons := db.tv_show_seasons ++ [newSeasonRow db sid sn ep],
            season_seq := db.season_seq + 1 } := by
  unfold add_tv_show_season at h
  split at h
  · exact (Except.ok.inj h).symm
  · exact absurd h (by simp)

theorem sqlEq_int_refl (i : Int) : sqlEq (SqlValue.int i) (SqlValue.int i) = true := by
  simp [sqlEq]

/-- C6: a successful insert appends exactly one row whose state column
defaults to SEARCHING, whose hash (where present) is NULL, and whose
remaining columns hold exactly the supplied values; reading the new row
back by its auto-assigned id (`get_movie` / `get_tv_show`) returns that
row.  (`tv_show_seasons` has no read-by-id in the module, so the season
conjunct inspects the created row directly.)  The freshness hypothesis —
no existing row already carries the next sequence value — holds in every
store whose rows were created by this module. -/
theorem C6_insert_then_read (db : DB) (nm msz rp sid sn ep : SqlValue) (db2 db3 db4 : DB) :
    (add_movie db nm msz rp = .ok db2 →
      (∀ r ∈ db.movies, sqlEq (getField r "id") (SqlValue.int db.movie_seq) = false) →
      get_movie db2 db.movie_seq = some (newMovieRow db nm msz rp) ∧
      getField (newMovieRow db nm msz rp) "state" = SqlValue.text "SEARCHING" ∧
      getField (newMovieRow db nm msz rp) "name" = nm ∧
      getField (newMovieRow db nm msz rp) "max_size_mb" = msz ∧
      getField (newMovieRow db nm msz rp) "resolution_profile" = rp ∧
      getField (newMovieRow db nm msz rp) "hash" = SqlValue.null) ∧
    (add_tv_show db nm msz rp = .ok db3 →
      (∀ r ∈ db.tv_shows, sqlEq (getField r "id") (SqlValue.int db.show_seq) = false) →
      get_tv_show db3 db.show_seq = some (newTvShowRow db nm msz rp) ∧
      getField (newTvShowRow db nm msz rp) "state" = SqlValue.text "SEARCHING" ∧
      getField (newTvShowRow db nm msz rp) "name" = nm ∧
      getField (newTvShowRow db nm msz rp) "max_episode_size_mb" = msz ∧
      getField (newTvShowRow db nm msz rp) "resolution_profile" = rp) ∧
    (add_tv_show_season db sid sn ep = .ok db4 →
      db4.tv_show_seasons = db.tv_show_seasons ++ [newSeasonRow db sid sn ep] ∧
      getField (newSeasonRow db sid sn ep) "state" = SqlValue.text "SEARCHING" ∧
      getField (newSeasonRow db sid sn ep) "show_id" = sid ∧
      getField (newSeasonRow db sid sn ep) "season_number" = sn ∧
      getField (newSeasonRow db sid sn ep) "season_number_episodes" = ep ∧
      getField (newSeasonRow db sid sn ep) "hash" = SqlValue.null) := by
  refine ⟨?_, ?_, ?_⟩
  · intro h hfresh
    have hdb2 := add_movie_ok_elim db nm msz rp db2 h
    subst hdb2
    refine ⟨?_, rfl, rfl, rfl, rfl, rfl⟩
    unfold get_movie
    show (db.movies ++ [newMovieRow db nm msz rp]).find?
      (fun r => sqlEq (getField r "id") (SqlValue.int db.movie_seq)) = _
    rw [find?_append_none _ _ _ hfresh]
    rw [List.find?_cons_of_pos _ (by
      rw [newMovieRow_id]
      exact sqlEq_int_refl db.movie_seq)]
  · intro h hfresh
    have hdb3 := add_tv_show_ok_elim db nm msz rp db3 h
    subst hdb3
    refine ⟨?_, rfl, rfl, rfl, rfl⟩
    unfold get_tv_show
    show (db.tv_shows ++ [newTvShowRow db nm msz rp]).find?
      (fun r => sqlEq (getField r "id") (SqlValue.int db.show_seq)) = _
    rw [find?_append_none _ _ _ hfresh]
    rw [List.find?_cons_of_pos _ (by
      rw [newTvShowRow_id]
      exact sqlEq_int_refl db.show_seq)]
  · intro h
    have hdb4 := add_tv_show_season_ok_elim db sid sn ep db4 h
    subst hdb4
    exact ⟨rfl, rfl, rfl, rfl, rfl, rfl⟩

/-- C6 witness: a concrete insert followed by the read-by-id. -/
theorem C6_witness :
    get_movie { exJoinDB with
        movies := exJoinDB.movies ++
          [newMovieRow exJoinDB (SqlValue.text "B") (SqlValue.int 50) (SqlValue.text "720p")],
        movie_seq := exJoinDB.movie_seq + 1 } exJoinDB.movie_seq =
      some (newMovieRow exJoinDB (SqlValue.text "B") (SqlValue.int 50) (SqlValue.text "720p")) ∧
    getField (newMovieRow exJoinDB (SqlValue.text "B") (SqlValue.int 50) (SqlValue.text "720p"))
      "state" = SqlValue.text "SEARCHING" := by
  have h := (C6_insert_then_read exJoinDB (SqlValue.text "B") (SqlValue.int 50)
    (SqlValue.text "720p") SqlValue.null SqlValue.null SqlValue.null
    { exJoinDB with
      movies := exJoinDB.movies ++
        [newMovieRow exJoinDB (SqlValue.text "B") (SqlValue.int 50) (SqlValue.text "720p")],
      movie_seq := exJoinDB.movie_seq + 1 }
    exJoinDB exJoinDB).1 (by decide) (by decide)
  exact ⟨h.1, h.2.1⟩

/-- C8: `add_tv_show_season` never consults the `tv_shows` table — the
schema's FOREIGN KEY is not enforced because the sqlite connection never
enables `PRAGMA foreign_keys`.  The insert succeeds under hypotheses that
mention only the seasons table (NOT NULL columns, UNIQUE(show_id,
season_number)), for ANY `show_id` value — dangling or NULL — creating an
orphan season.  The third conjunct shows the uniqueness check can never
reject a NULL `show_id` (NULL index entries are pairwise distinct), so a
NULL season insert succeeds whenever the NOT NULL columns are supplied. -/
theorem C8_no_fk_enforcement (db : DB) (sid sn ep : SqlValue)
    (hok : seasonsOk db.tv_show_seasons = true)
    (hsn : isNull sn = false) (hep : isNull ep = false)
    (hnoconf : ∀ r ∈ db.tv_show_seasons,
      (sqlEq (getField r "show_id") sid && sqlEq (getField r "season_number") sn) = false) :
    add_tv_show_season db sid sn ep = .ok { db with
      tv_show_seasons := db.tv_show_seasons ++ [newSeasonRow db sid sn ep],
      season_seq := db.season_seq + 1 } ∧
    getField (newSeasonRow db sid sn ep) "show_id" = sid ∧
    (∀ r : Row,
      (sqlEq (getField r "show_id") SqlValue.null &&
        sqlEq (getField r "season_number") sn) = false) := by
  refine ⟨add_tv_show_season_ok_intro db sid sn ep hok hsn hep hnoconf, rfl, ?_⟩
  intro r
  cases hg : getField r "show_id" <;> simp [sqlEq]

/-- C8 witness: inserting a season whose show_id (99) references no
tv_shows row succeeds and stores the dangling reference. -/
theorem C8_witness :
    add_tv_show_season exJoinDB (SqlValue.int 99) (SqlValue.int 1) (SqlValue.int 5) =
      Except.ok { exJoinDB with
        tv_show_seasons := exJoinDB.tv_show_seasons ++
          [newSeasonRow exJoinDB (SqlValue.int 99) (SqlValue.int 1) (SqlValue.int 5)],
        season_seq := exJoinDB.season_seq + 1 } ∧
    (∀ sh ∈ exJoinDB.tv_shows, getField sh "id" ≠ SqlValue.int 99) :=
  ⟨(C8_no_fk_enforcement exJoinDB (SqlValue.int 99) (SqlValue.int 1) (SqlValue.int 5)
      (by decide) (by decide) (by decide) (by decide)).1,
   by decide⟩

/-- C9: `delete_tv_show` only filters the `tv_shows` table by id: the
movies table, the seasons table — including every season whose show_id
equals the deleted id — and all sequence counters are untouched (no
cascade; foreign keys are not enforced). -/
theorem C9_delete_show_no_cascade (db : DB) (id : Int) :
    (delete_tv_show db id).tv_show_seasons = db.tv_show_seasons ∧
    (delete_tv_show db id).movies = db.movies ∧
    (delete_tv_show db id).movie_seq = db.movie_seq ∧
    (delete_tv_show db id).show_seq = db.show_seq ∧
    (delete_tv_show db id).season_seq = db.season_seq ∧
    (∀ r : Row, r ∈ (delete_tv_show db id).tv_shows ↔
      r ∈ db.tv_shows ∧ sqlEq (getField r "id") (SqlValue.int id) = false) ∧
    (∀ se ∈ db.tv_show_seasons, se ∈ (delete_tv_show db id).tv_show_seasons) := by
  refine ⟨rfl, rfl, rfl, rfl, rfl, ?_, ?_⟩
  · intro r
    show r ∈ db.tv_shows.filter (fun x => !(sqlEq (getField x "id") (SqlValue.int id))) ↔ _
    rw [List.mem_filter]
    simp [Bool.not_eq_true']
  · intro se hse
    exact hse

theorem mkViewRow_show_id (sh se : Row) :
    getField (mkViewRow sh se) "show_id" = getField sh "id" := rfl

theorem mkViewRow_season_id (sh se : Row) :
    getField (mkViewRow sh se) "season_id" = getField se "id" := rfl

theorem mkViewRow_season_state (sh se : Row) :
    getField (mkViewRow sh se) "season_state" = getField se "state" := rfl

theorem mem_viewList (shows seasons : List Row) (row : Row) :
    row ∈ viewList shows seasons ↔
    ∃ sh ∈ shows, ∃ se ∈ seasons,
      sqlEq (getField sh "id") (getField se "show_id") = true ∧ row = mkViewRow sh se := by
  unfold viewList
  simp only [List.mem_flatMap, List.mem_map, List.mem_filter]
  constructor
  · rintro ⟨sh, hsh, se, ⟨hse, hmatch⟩, hrow⟩
    exact ⟨sh, hsh, se, hse, hmatch, hrow.symm⟩
  · rintro ⟨sh, hsh, se, hse, hmatch, hrow⟩
    exact ⟨sh, hsh, se, ⟨hse, hmatch⟩, hrow.symm⟩

theorem sqlEq_int_right_iff (v : SqlValue) (i : Int) :
    sqlEq v (SqlValue.int i) = true ↔ v = SqlValue.int i := by
  cases v <;> simp [sqlEq]

theorem sqlEq_int_left_iff (v : SqlValue) (i : Int) :
    sqlEq (SqlValue.int i) v = true ↔ v = SqlValue.int i := by
  cases v <;> simp [sqlEq, eq_comm]

/-- C10: for a show id that exists in tv_shows, `get_season_states`
returns the deduplicated, unordered set (a `Finset`) of the distinct
state values among the seasons whose show_id equals the argument; each
state present appears exactly once (Finset semantics) and a show with no
seasons yields the empty set (the filtered list is empty). -/
theorem C10_get_season_states (db : DB) (sid : Int)
    (hsh : ∃ sh ∈ db.tv_shows, getField sh "id" = SqlValue.int sid) :
    get_season_states db sid =
      ((db.tv_show_seasons.filter
          (fun se => getField se "show_id" = SqlValue.int sid)).map
        (fun se => getField se "state")).toFinset := by
  apply Finset.ext
  intro x
  unfold get_season_states
  simp only [List.mem_toFinset, List.mem_map, List.mem_filter]
  constructor
  · rintro ⟨row, ⟨hrow, hfilt⟩, hx⟩
    rw [show tvShowsWithSeasonsView db = viewList db.tv_shows db.tv_show_seasons from rfl]
      at hrow
    obtain ⟨sh, hshm, se, hsem, hmatch, hroweq⟩ := (mem_viewList _ _ _).mp hrow
    subst hroweq
    rw [mkViewRow_show_id] at hfilt
    have hshid : getField sh "id" = SqlValue.int sid := (sqlEq_int_right_iff _ _).mp hfilt
    rw [hshid] at hmatch
    have hseid : getField se "show_id" = SqlValue.int sid := (sqlEq_int_left_iff _ _).mp hmatch
    rw [mkViewRow_season_state] at hx
    exact ⟨se, ⟨hsem, by simp [hseid]⟩, hx⟩
  · rintro ⟨se, ⟨hsem, hsid⟩, hx⟩
    obtain ⟨sh, hshm, hshid⟩ := hsh
    have hseid : getField se "show_id" = SqlValue.int sid := by simpa using hsid
    refine ⟨mkViewRow sh se, ⟨?_, ?_⟩, ?_⟩
    · rw [show tvShowsWithSeasonsView db = viewList db.tv_shows db.tv_show_seasons from rfl]
      apply (mem_viewList _ _ _).mpr
      refine ⟨sh, hshm, se, hsem, ?_, rfl⟩
      rw [hshid, hseid]
      exact sqlEq_int_refl sid
    · rw [mkViewRow_show_id, hshid]
      exact sqlEq_int_refl sid
    · rw [mkViewRow_season_state]
      exact hx

/-- C10 witness: seasons in states SEEDING, SEEDING, COMPLETED yield the
two-element set. -/
theorem C10_witness :
    get_season_states exJoinDB 1 =
      ((exJoinDB.tv_show_seasons.filter
          (fun se => getField se "show_id" = SqlValue.int 1)).map
        (fun se => getField se "state")).toFinset ∧
    ((exJoinDB.tv_show_seasons.filter
        (fun se => getField se "show_id" = SqlValue.int 1)).map
      (fun se => getField se "state")).toFinset =
      {SqlValue.text "SEEDING", SqlValue.text "COMPLETED"} :=
  ⟨C10_get_season_states exJoinDB 1 (by decide), by decide⟩

theorem mkViewRow_eq_season_id (sh se sh0 se0 : Row)
    (h : mkViewRow sh se = mkViewRow sh0 se0) :
    getField se "id" = getField se0 "id" := by
  have := congrArg (fun r => getField r "season_id") h
  simpa [mkViewRow_season_id] using this

theorem mkViewRow_eq_show_id (sh se sh0 se0 : Row)
    (h : mkViewRow sh se = mkViewRow sh0 se0) :
    getField sh "id" = getField sh0 "id" := by
  have := congrArg (fun r => getField r "show_id") h
  simpa [mkViewRow_show_id] using this

theorem count_inner_one (sh0 : Row) :
    ∀ (seasons : List Row) (se0 : Row),
    (seasons.map (fun se => getField se "id")).Nodup →
    se0 ∈ seasons →
    sqlEq (getField sh0 "id") (getField se0 "show_id") = true →
    ((seasons.filter (fun se => sqlEq (getField sh0 "id") (getField se "show_id"))).map
      (fun se => mkViewRow sh0 se)).count (mkViewRow sh0 se0) = 1 := by
  intro seasons
  induction seasons with
  | nil => intro se0 _ hmem _; simp at hmem
  | cons se rest ih =>
      intro se0 hnd hmem hmatch
      simp only [List.map_cons, List.nodup_cons] at hnd
      rcases List.mem_cons.mp hmem with heq | hrest
      · subst heq
        rw [@List.filter_cons_of_pos Row
          (fun se => sqlEq (getField sh0 "id") (getField se "show_id")) se0 rest hmatch,
          List.map_cons, List.count_cons_self]
        have hzero : ((rest.filter
            (fun se => sqlEq (getField sh0 "id") (getField se "show_id"))).map
            (fun se => mkViewRow sh0 se)).count (mkViewRow sh0 se0) = 0 := by
          rw [List.count_eq_zero]
          intro hmem2
          obtain ⟨se2, hse2, heq2⟩ := List.mem_map.mp hmem2
          have hid : getField se2 "id" = getField se0 "id" :=
            mkViewRow_eq_season_id sh0 se2 sh0 se0 heq2
          have hse2r : se2 ∈ rest := (List.mem_filter.mp hse2).1
          exact hnd.1 (hid ▸ List.mem_map_of_mem (fun se => getField se "id") hse2r)
        rw [hzero]
      · by_cases hm : sqlEq (getField sh0 "id") (getField se "show_id") = true
        · rw [@List.filter_cons_of_pos Row
            (fun se2 => sqlEq (getField sh0 "id") (getField se2 "show_id")) se rest hm,
            List.map_cons, List.count_cons_of_ne ?hne]
          · exact ih se0 hnd.2 hrest hmatch
          case hne =>
            intro hcontra
            have hid : getField se0 "id" = getField se "id" :=
              mkViewRow_eq_season_id sh0 se0 sh0 se hcontra
            exact hnd.1 (hid ▸ List.mem_map_of_mem (fun se => getField se "id") hrest)
        · rw [@List.filter_cons_of_neg Row
            (fun se2 => sqlEq (getField sh0 "id") (getField se2 "show_id")) se rest hm]
          exact ih se0 hnd.2 hrest hmatch

theorem count_viewList_zero (shows seasons : List Row) (sh0 se0 : Row)
    (hid : getField sh0 "id" ∉ shows.map (fun sh => getField sh "id")) :
    (viewList shows seasons).count (mkViewRow sh0 se0) = 0 := by
  rw [List.count_eq_zero]
  intro hmem
  obtain ⟨sh, hshm, se, hsem, hmatch, heq⟩ := (mem_viewList _ _ _).mp hmem
  have hidshow : getField sh "id" = getField sh0 "id" :=
    mkViewRow_eq_show_id sh se sh0 se0 heq.symm
  exact hid (hidshow ▸ List.mem_map_of_mem (fun sh => getField sh "id") hshm)

theorem count_viewList_one :
    ∀ (shows : List Row) (seasons : List Row) (sh0 se0 : Row),
    (shows.map (fun sh => getField sh "id")).Nodup →
    (seasons.map (fun se => getField se "id")).Nodup →
    sh0 ∈ shows → se0 ∈ seasons →
    sqlEq (getField sh0 "id") (getField se0 "show_id") = true →
    (viewList shows seasons).count (mkViewRow sh0 se0) = 1 := by
  intro shows
  induction shows with
  | nil => intro seasons sh0 se0 _ _ hmem _ _; simp at hmem
  | cons sh rest ih =>
      intro seasons sh0 se0 hshnd hsend hshm hsem hmatch
      simp only [List.map_cons, List.nodup_cons] at hshnd
      rw [show viewList (sh :: rest) seasons =
        ((seasons.filter (fun se => sqlEq (getField sh "id") (getField se "show_id"))).map
          (fun se => mkViewRow sh se)) ++ viewList rest seasons from rfl]
      rw [List.count_append]
      rcases List.mem_cons.mp hshm with heq | hrest
      · subst heq
        rw [count_inner_one sh0 seasons se0 hsend hsem hmatch,
          count_viewList_zero rest seasons sh0 se0 hshnd.1]
      · have hinner : ((seasons.filter
            (fun se => sqlEq (getField sh "id") (getField se "show_id"))).map
            (fun se => mkViewRow sh se)).count (mkViewRow sh0 se0) = 0 := by
          rw [List.count_eq_zero]
          intro hmem2
          obtain ⟨se2, _, heq2⟩ := List.mem_map.mp hmem2
          have hid : getField sh "id" = getField sh0 "id" :=
            mkViewRow_eq_show_id sh se2 sh0 se0 heq2
          exact hshnd.1 (hid ▸ List.mem_map_of_mem (fun sh => getField sh "id") hrest)
        rw [hinner, ih seasons sh0 se0 hshnd.2 hsend hrest hsem hmatch]

theorem sqlEq_int_decide (v : SqlValue) (i : Int) :
    sqlEq v (SqlValue.int i) = decide (v = SqlValue.int i) := by
  cases v with
  | null => simp [sqlEq]
  | int j => simp [sqlEq]
  | text a => simp [sqlEq]

/-- C7: the view is the inner join of shows and seasons on
`tv_shows.id = tv_show_seasons.show_id`: (1) its rows are exactly the
projections of matching (show, season) pairs; (2) with unique row ids
(the PRIMARY KEY invariant) each matching pair produces exactly one row;
(3) a show with zero matching seasons contributes no row at all — it is
absent from the result; (4) `get_tv_show_with_seasons id` is the same
join restricted to the rows whose show_id equals the given id. -/
theorem C7_view_join (db : DB) (id : Int) :
    (∀ row, row ∈ get_all_tv_shows_with_seasons db ↔
      ∃ sh ∈ db.tv_shows, ∃ se ∈ db.tv_show_seasons,
        sqlEq (getField sh "id") (getField se "show_id") = true ∧ row = mkViewRow sh se) ∧
    ((db.tv_shows.map (fun sh => getField sh "id")).Nodup →
     (db.tv_show_seasons.map (fun se => getField se "id")).Nodup →
      ∀ sh ∈ db.tv_shows, ∀ se ∈ db.tv_show_seasons,
        sqlEq (getField sh "id") (getField se "show_id") = true →
        (get_all_tv_shows_with_seasons db).count (mkViewRow sh se) = 1) ∧
    (∀ sh ∈ db.tv_shows,
      (∀ se ∈ db.tv_show_seasons,
        sqlEq (getField sh "id") (getField se "show_id") = false) →
      ∀ row ∈ get_all_tv_shows_with_seasons db,
        getField row "show_id" ≠ getField sh "id") ∧
    get_tv_show_with_seasons db id =
      (get_all_tv_shows_with_seasons db).filter
        (fun r => getField r "show_id" = SqlValue.int id) := by
  refine ⟨?_, ?_, ?_, ?_⟩
  · intro row
    exact mem_viewList db.tv_shows db.tv_show_seasons row
  · intro hshnd hsend sh hsh se hse hmatch
    exact count_viewList_one db.tv_shows db.tv_show_seasons sh se hshnd hsend hsh hse hmatch
  · intro sh hsh hnoseason row hrow hcontra
    obtain ⟨sh2, hsh2, se2, hse2, hmatch2, hroweq⟩ :=
      (mem_viewList db.tv_shows db.tv_show_seasons row).mp hrow
    subst hroweq
    rw [mkViewRow_show_id] at hcontra
    rw [hcontra] at hmatch2
    rw [hnoseason se2 hse2] at hmatch2
    exact Bool.false_ne_true hmatch2
  · unfold get_tv_show_with_seasons get_all_tv_shows_with_seasons
    apply List.filter_congr
    intro r _
    exact sqlEq_int_decide (getField r "show_id") id

/-- C7 witness: in the concrete store, the matching pair (S1, season 1)
yields exactly one view row, the zero-season show S2 is absent from the
result, and the one-show read is the filtered join. -/
theorem C7_witness :
    (get_all_tv_shows_with_seasons exJoinDB).count (mkViewRow exShowS1 exSeason1) = 1 ∧
    (∀ row ∈ get_all_tv_shows_with_seasons exJoinDB,
      getField row "show_id" ≠ getField exShowS2 "id") ∧
    get_tv_show_with_seasons exJoinDB 1 =
      (get_all_tv_shows_with_seasons exJoinDB).filter
        (fun r => getField r "show_id" = SqlValue.int 1) :=
  ⟨(C7_view_join exJoinDB 1).2.1 (by decide) (by decide) exShowS1 (by decide) exSeason1
      (by decide) (by decide),
   (C7_view_join exJoinDB 1).2.2.1 exShowS2 (by decide) (by decide),
   (C7_view_join exJoinDB 1).2.2.2⟩
